import Mathlib

/-!
Shallow embedding of the concurrency-and-caching core of a terminal Jira
client: the SQLite-backed metadata cache (`jira_sqlite_cache.py`) and the
query/ticket controllers (`jira_view_core.py`).

Modelling conventions:
- Machine time (`time.time()`) is an integer clock passed explicitly to
  every operation that reads it.
- Opaque pickled payloads are modelled as strings.
- The `metadata` SQLite table is a list of rows keyed by the primary key
  `(category, key)`; `INSERT OR REPLACE` is the relational upsert
  (delete any row with the same primary key, then add the new row), and
  `DELETE ... WHERE` is row filtering.
- Background threads are sequentialised: a worker body becomes a function
  from the controller state and the outcome of its fetch (`Except` carries
  a raised exception) to the final controller state.
-/

/-- One row of the SQLite `metadata` table: `data BLOB`, `ttl INTEGER`,
`cached_at REAL` (the primary-key columns `category`/`key` are kept
outside the row, as the lookup key). -/
structure MetaRow where
  data : String
  ttl : Int
  cached_at : Int
  deriving DecidableEq, Repr

/-- The `metadata` table: rows keyed by the primary key `(category, key)`. -/
abbrev MetaDB := List ((String × String) × MetaRow)

/-- `key_value = key if key is not None else ''` — both `get`, `set`,
`get_age` and `invalidate` convert an absent subkey to the empty string. -/
def keyValue (key : Option String) : String := key.getD ""

/-- `SELECT data, ttl, cached_at FROM metadata WHERE category = ? AND key = ?`
followed by `fetchone()`: the first row whose primary key matches. -/
def findRow (db : MetaDB) (category : String) (key_value : String) : Option MetaRow :=
  match db with
  | [] => none
  | r :: rest =>
    if r.1 = (category, key_value) then some r.2 else findRow rest category key_value

/-- `DELETE FROM metadata WHERE category = ? AND key = ?`. -/
def deleteRow (db : MetaDB) (category : String) (key_value : String) : MetaDB :=
  match db with
  | [] => []
  | r :: rest =>
    if r.1 = (category, key_value) then deleteRow rest category key_value
    else r :: deleteRow rest category key_value

/-- `JiraSQLiteCache.get`: returns `None` on `force_refresh`, on a missing
row, and on an expired row (`time.time() - cached_at > ttl`); otherwise the
unpickled payload. -/
def JiraSQLiteCache.get (db : MetaDB) (now : Int) (category : String)
    (key : Option String) (force_refresh : Bool) : Option String :=
  if force_refresh then none
  else
    match findRow db category (keyValue key) with
    | none => none
    | some row =>
      if now - row.cached_at > row.ttl then none
      else some row.data

/-- `JiraSQLiteCache.set`: `INSERT OR REPLACE INTO metadata` with
`cached_at = time.time()` — upsert on the primary key `(category, key)`. -/
def JiraSQLiteCache.set (db : MetaDB) (now : Int) (category : String)
    (data : String) (ttl : Int) (key : Option String) : MetaDB :=
  ((category, keyValue key), ⟨data, ttl, now⟩) :: deleteRow db category (keyValue key)

/-- `JiraSQLiteCache.invalidate`: `DELETE FROM metadata WHERE category = ?
AND key = ?`, where an absent subkey has been converted to `''`. -/
def JiraSQLiteCache.invalidate (db : MetaDB) (category : String)
    (key : Option String) : MetaDB :=
  deleteRow db category (keyValue key)

/-- A store instance as built by `JiraSQLiteCache.__init__`: it records the
`jira_url` it was constructed with, but no operation on the `metadata`
table mentions it (the database path and the table keys are shared by all
instances over the same cache directory). -/
structure SqliteCacheHandle where
  jira_url : String
  deriving DecidableEq, Repr

/-- `get` as invoked on a store instance: the handle's `jira_url` is not
read by the body of `get`. -/
def handleGet (h : SqliteCacheHandle) (db : MetaDB) (now : Int) (category : String)
    (key : Option String) (force_refresh : Bool) : Option String :=
  JiraSQLiteCache.get db now category key force_refresh

/-- `set` as invoked on a store instance: the handle's `jira_url` is not
read by the body of `set`. -/
def handleSet (h : SqliteCacheHandle) (db : MetaDB) (now : Int) (category : String)
    (data : String) (ttl : Int) (key : Option String) : MetaDB :=
  JiraSQLiteCache.set db now category data ttl key

/-- A `metadata` table holding two rows of one category `issue_types`:
the default (empty-subkey) entry and a per-project entry under subkey `p`. -/
def twoSubkeyDb : MetaDB :=
  [(("issue_types", ""), ⟨"default-types", 86400, 0⟩),
   (("issue_types", "p"), ⟨"proj-types", 86400, 0⟩)]

/-- C6 helper: looking up the freshly upserted primary key finds the new row. -/
theorem findRow_set_same (db : MetaDB) (now : Int) (category : String)
    (data : String) (ttl : Int) (key : Option String) :
    findRow (JiraSQLiteCache.set db now category data ttl key) category (keyValue key) =
      some ⟨data, ttl, now⟩ := by
  simp [JiraSQLiteCache.set, findRow]

/-- C5: `get` returns absent when `force_refresh` is true, when no row
exists for the identity `(category, subkey)`, and when the row is expired
(`now - cached_at > ttl`); being a total function, it raises nothing for a
missing entry. -/
theorem get_absent_conditions (db : MetaDB) (now : Int) (category : String)
    (key : Option String) :
    JiraSQLiteCache.get db now category key true = none ∧
    (findRow db category (keyValue key) = none →
      JiraSQLiteCache.get db now category key false = none) ∧
    (∀ row, findRow db category (keyValue key) = some row →
      now - row.cached_at > row.ttl →
      JiraSQLiteCache.get db now category key false = none) := by
  refine ⟨rfl, ?_, ?_⟩
  · intro h
    simp [JiraSQLiteCache.get, h]
  · intro row h hexp
    simp [JiraSQLiteCache.get, h, hexp]

/-- C5 witness: the three absent conditions at concrete inputs — forced
refresh, a missing row in the empty table, and an expired row. -/
theorem get_absent_conditions_witness :
    JiraSQLiteCache.get [] 0 "users" none true = none ∧
    JiraSQLiteCache.get [] 0 "users" none false = none ∧
    JiraSQLiteCache.get [(("users", ""), ⟨"u", 5, 0⟩)] 10 "users" none false = none := by
  refine ⟨(get_absent_conditions [] 0 "users" none).1, ?_, ?_⟩
  · exact (get_absent_conditions [] 0 "users" none).2.1 rfl
  · exact (get_absent_conditions [(("users", ""), ⟨"u", 5, 0⟩)] 10 "users" none).2.2
      ⟨"u", 5, 0⟩ rfl (by decide)

/-- C6: for any positive TTL, `set` followed by an immediate `get` of the
same identity returns the stored payload. -/
theorem set_then_get (db : MetaDB) (now : Int) (category : String)
    (data : String) (ttl : Int) (key : Option String) (h : 0 < ttl) :
    JiraSQLiteCache.get (JiraSQLiteCache.set db now category data ttl key)
      now category key false = some data := by
  simp [JiraSQLiteCache.get, findRow_set_same]
  omega

/-- C6 witness: round trip through the store at a concrete input. -/
theorem set_then_get_witness :
    JiraSQLiteCache.get (JiraSQLiteCache.set [] 0 "link_types" "lt" 3600 none)
      0 "link_types" none false = some "lt" :=
  set_then_get [] 0 "link_types" "lt" 3600 none (by decide)

/-- C10: `get` performs only a `SELECT` (it is a pure read of the table),
so after `set`, a `force_refresh` `get` returns absent while a subsequent
plain `get` of the unchanged table still returns the stored payload. -/
theorem get_force_refresh_read_only (db : MetaDB) (now : Int) (category : String)
    (data : String) (ttl : Int) (key : Option String) (h : 0 < ttl) :
    JiraSQLiteCache.get (JiraSQLiteCache.set db now category data ttl key)
      now category key true = none ∧
    JiraSQLiteCache.get (JiraSQLiteCache.set db now category data ttl key)
      now category key false = some data :=
  ⟨rfl, set_then_get db now category data ttl key h⟩

/-- C10 witness: forced `get` misses, plain `get` afterwards still hits. -/
theorem get_force_refresh_read_only_witness :
    JiraSQLiteCache.get (JiraSQLiteCache.set [] 0 "users" "u1" 60 none)
      0 "users" none true = none ∧
    JiraSQLiteCache.get (JiraSQLiteCache.set [] 0 "users" "u1" 60 none)
      0 "users" none false = some "u1" :=
  get_force_refresh_read_only [] 0 "users" "u1" 60 none (by decide)

/-- C4: with the subkey absent, `JiraSQLiteCache.invalidate` deletes only
the empty-subkey row (`DELETE ... WHERE category = ? AND key = ''`): on a
table holding a default entry and a subkeyed entry of the same category,
the subkeyed entry survives and `get` still returns its payload, contrary
to the whole-category deletion the claim (and `JiraCache.invalidate`, with
which the method declares API compatibility) requires. -/
theorem invalidate_leaves_subkeyed_rows :
    JiraSQLiteCache.invalidate twoSubkeyDb "issue_types" none =
      [(("issue_types", "p"), ⟨"proj-types", 86400, 0⟩)] ∧
    JiraSQLiteCache.get (JiraSQLiteCache.invalidate twoSubkeyDb "issue_types" none)
      0 "issue_types" (some "p") false = some "proj-types" := by
  exact ⟨by decide, by decide⟩

/-- C9: the durable SQLite state is not namespaced by the store's base
address: two handles over the same table, constructed with different
`jira_url` values, collide — a payload written through the first handle's
`set` is returned by the second handle's `get`. -/
theorem cross_instance_collision :
    ("https://a.example" : String) ≠ "https://b.example" ∧
    handleGet ⟨"https://b.example"⟩
      (handleSet ⟨"https://a.example"⟩ [] 0 "link_types" "payload-a" 86400 none)
      0 "link_types" none false = some "payload-a" := by
  exact ⟨by decide, by decide⟩

/-- A ticket record fetched from the API: a `key` plus its opaque field
payload. -/
structure Ticket where
  key : String
  fields : String
  deriving DecidableEq, Repr

/-- The mutable state of a `QueryController` instance: the in-memory
snapshot `ticket_cache` (key → ticket, Python-dict insertion order) and
the two atomic flags. -/
structure QCState where
  ticket_cache : List (String × Ticket)
  refresh_needed : Bool
  is_updating : Bool
  deriving DecidableEq, Repr

/-- The value returned by `execute_query` (dataclass `QueryResult`);
the float `cache_age` is modelled as an integer. -/
structure QueryResult where
  tickets : List Ticket
  status : String
  cache_age : Option Int
  is_updating : Bool
  error : Option String
  deriving DecidableEq, Repr

/-- Python-dict insertion: replace in place if the key exists, else append. -/
def dictInsert (m : List (String × Ticket)) (k : String) (t : Ticket) :
    List (String × Ticket) :=
  if m.any (fun p => p.1 == k) then
    m.map (fun p => if p.1 == k then (k, t) else p)
  else m ++ [(k, t)]

/-- The dict comprehension `{t["key"]: t for t in fresh_tickets}`. -/
def ticketsByKey (ts : List Ticket) : List (String × Ticket) :=
  ts.foldl (fun m t => dictInsert m t.key t) []

/-- `QueryController._calculate_cache_age`: `None` for an empty snapshot,
else `0.0` (real timestamps are not implemented yet). -/
def calculateCacheAge (tickets : List (String × Ticket)) : Option Int :=
  if tickets.isEmpty then none else some 0

/-- The body of the `background_refresh` worker closure inside
`QueryController._spawn_background_refresh`, sequentialised: `fetchOutcome`
is the outcome of `self._fetch_from_api` together with the snapshot
rebuild (`Except.error` is any exception raised partway through the `try`
block).  On success the snapshot is replaced wholesale and
`refresh_needed` is set; on an exception the error is logged and the state
left alone; the `finally` clause clears `is_updating` in every case. -/
def backgroundRefresh (s : QCState) (fetchOutcome : Except String (List Ticket)) :
    QCState :=
  match fetchOutcome with
  | Except.ok fresh =>
    { s with
        ticket_cache := ticketsByKey fresh
        refresh_needed := true
        is_updating := false }
  | Except.error _ =>
    { s with is_updating := false }

/-- The synchronous part of `QueryController._spawn_background_refresh`:
returns early when a refresh is already in flight (no worker started),
otherwise sets `is_updating` and starts the daemon thread. `startExc`
injects an exception at the thread-start call (`Except.error` carries the
message and the state, whose flag has already been set). The boolean
records whether a new worker was started. -/
def spawnBackgroundRefresh (s : QCState) (startExc : Option String) :
    Except (String × QCState) (QCState × Bool) :=
  if s.is_updating then Except.ok (s, false)
  else
    match startExc with
    | some e => Except.error (e, { s with is_updating := true })
    | none => Except.ok ({ s with is_updating := true }, true)

/-- `QueryController.execute_query`, sequentialised: `startExc` injects an
exception into the synchronous steps (at the thread-start call inside
`_spawn_background_refresh`); the surrounding `try`/`except` turns any
such exception into an `ERROR` result.  Returns the `QueryResult`, the
controller state after the call, and whether a new worker was started. -/
def executeQuery (s : QCState) (force_refresh : Bool) (startExc : Option String) :
    QueryResult × QCState × Bool :=
  let cache_tickets := s.ticket_cache
  if force_refresh || cache_tickets.isEmpty then
    match spawnBackgroundRefresh s startExc with
    | Except.error (e, s') =>
      ({ tickets := [], status := "ERROR", cache_age := none,
         is_updating := false, error := some e }, s', false)
    | Except.ok (s', spawned) =>
      if cache_tickets.isEmpty then
        ({ tickets := [], status := "FIRST_RUN", cache_age := none,
           is_updating := true, error := none }, s', spawned)
      else
        ({ tickets := cache_tickets.map Prod.snd, status := "UPDATING",
           cache_age := calculateCacheAge cache_tickets,
           is_updating := true, error := none }, s', spawned)
  else
    match spawnBackgroundRefresh s startExc with
    | Except.error (e, s') =>
      ({ tickets := [], status := "ERROR", cache_age := none,
         is_updating := false, error := some e }, s', false)
    | Except.ok (s', spawned) =>
      ({ tickets := cache_tickets.map Prod.snd,
         status := if s'.is_updating then "UPDATING" else "CURRENT",
         cache_age := calculateCacheAge cache_tickets,
         is_updating := s'.is_updating, error := none }, s', spawned)

/-- C1: whatever the outcome of the fetch — success, failure, or an
exception raised partway through — the `finally` clause leaves the
background worker's final state with `is_updating = false`, so a finished
worker never blocks future refreshes. -/
theorem backgroundRefresh_clears_flag (s : QCState)
    (fetchOutcome : Except String (List Ticket)) :
    (backgroundRefresh s fetchOutcome).is_updating = false := by
  cases fetchOutcome <;> rfl

/-- C2: exception-free `execute_query`.  When `force_refresh` is set or
the snapshot is empty, a refresh is started iff none was running, the
in-flight flag is set afterwards, and the call returns `FIRST_RUN` with
empty records (empty snapshot) or `UPDATING` with the existing snapshot
(non-empty snapshot), `is_updating = true` in both cases.  Otherwise the
existing snapshot is returned with a refresh started iff none was running,
and the status is `UPDATING` when a refresh is now running, else
`CURRENT`. -/
theorem executeQuery_no_exception (s : QCState) (force_refresh : Bool) :
    ((force_refresh = true ∨ s.ticket_cache.isEmpty = true) →
      (executeQuery s force_refresh none).2.2 = !s.is_updating ∧
      ((executeQuery s force_refresh none).2.1).is_updating = true ∧
      (s.ticket_cache.isEmpty = true →
        (executeQuery s force_refresh none).1 =
          { tickets := [], status := "FIRST_RUN", cache_age := none,
            is_updating := true, error := none }) ∧
      (s.ticket_cache.isEmpty = false →
        (executeQuery s force_refresh none).1.status = "UPDATING" ∧
        (executeQuery s force_refresh none).1.tickets = s.ticket_cache.map Prod.snd ∧
        (executeQuery s force_refresh none).1.is_updating = true)) ∧
    ((force_refresh = false ∧ s.ticket_cache.isEmpty = false) →
      (executeQuery s force_refresh none).2.2 = !s.is_updating ∧
      (executeQuery s force_refresh none).1.tickets = s.ticket_cache.map Prod.snd ∧
      (executeQuery s force_refresh none).1.status =
        (if ((executeQuery s force_refresh none).2.1).is_updating
          then "UPDATING" else "CURRENT") ∧
      (executeQuery s force_refresh none).1.is_updating =
        ((executeQuery s force_refresh none).2.1).is_updating) := by
  cases hf : force_refresh <;>
    cases hu : s.is_updating <;>
      cases hc : s.ticket_cache.isEmpty <;>
        simp [executeQuery, spawnBackgroundRefresh, hu, hc]

/-- C2 witness: a cold controller (empty snapshot, no refresh running)
spawns a worker and returns the `FIRST_RUN` result. -/
theorem executeQuery_no_exception_witness :
    (executeQuery ⟨[], false, false⟩ false none).2.2 = !false ∧
    (executeQuery ⟨[], false, false⟩ false none).1 =
      { tickets := [], status := "FIRST_RUN", cache_age := none,
        is_updating := true, error := none } := by
  have h := (executeQuery_no_exception ⟨[], false, false⟩ false).1 (Or.inr rfl)
  exact ⟨h.1, h.2.2.1 rfl⟩

/-- C3: a call made while the in-flight flag is set starts no second
worker — `_spawn_background_refresh` returns early with the state
untouched, and `execute_query` (either branch) reports that no worker was
started. -/
theorem no_second_worker (s : QCState) (startExc : Option String)
    (force_refresh : Bool) (h : s.is_updating = true) :
    spawnBackgroundRefresh s startExc = Except.ok (s, false) ∧
    (executeQuery s force_refresh startExc).2.2 = false ∧
    (executeQuery s force_refresh startExc).2.1 = s := by
  refine ⟨by simp [spawnBackgroundRefresh, h], ?_, ?_⟩ <;>
    cases hf : force_refresh <;>
      cases hc : s.ticket_cache.isEmpty <;>
        simp [executeQuery, spawnBackgroundRefresh, h, hc]

/-- C3 witness: with a refresh already in flight, neither a direct spawn
nor `execute_query` starts a second worker. -/
theorem no_second_worker_witness :
    spawnBackgroundRefresh ⟨[("K-1", ⟨"K-1", "f"⟩)], false, true⟩ none =
      Except.ok (⟨[("K-1", ⟨"K-1", "f"⟩)], false, true⟩, false) ∧
    (executeQuery ⟨[("K-1", ⟨"K-1", "f"⟩)], false, true⟩ false none).2.2 = false ∧
    (executeQuery ⟨[("K-1", ⟨"K-1", "f"⟩)], false, true⟩ false none).2.1 =
      ⟨[("K-1", ⟨"K-1", "f"⟩)], false, true⟩ :=
  no_second_worker ⟨[("K-1", ⟨"K-1", "f"⟩)], false, true⟩ none false rfl

/-- C8: when an exception is raised during the synchronous steps of
`execute_query` (injected at the thread-start call, the fallible point of
steps 1–3; it can fire only when no refresh was already running), the
`except` clause returns status `ERROR` with the message attached, empty
records and `is_updating = false`, instead of propagating. -/
theorem executeQuery_sync_exception (s : QCState) (force_refresh : Bool)
    (msg : String) (h : s.is_updating = false) :
    (executeQuery s force_refresh (some msg)).1 =
      { tickets := [], status := "ERROR", cache_age := none,
        is_updating := false, error := some msg } := by
  cases hf : force_refresh <;>
    cases hc : s.ticket_cache.isEmpty <;>
      simp [executeQuery, spawnBackgroundRefresh, h, hc]

/-- C8 witness: a concrete synchronous failure yields the `ERROR` result. -/
theorem executeQuery_sync_exception_witness :
    (executeQuery ⟨[], false, false⟩ true (some "boom")).1 =
      { tickets := [], status := "ERROR", cache_age := none,
        is_updating := false, error := some "boom" } :=
  executeQuery_sync_exception ⟨[], false, false⟩ true "boom" rfl

/-- The body of the `background_refresh` worker closure inside
`TicketController.refresh_ticket`, sequentialised.  `fetchOutcome` is the
outcome of `self.utils.fetch_all_jql_results` (`Except.error` is a raised
exception); the callback is opaque external code whose behaviour on each
argument is either a normal return or a raised exception.  The `try`
block extracts `tickets[0] if tickets else None` and invokes the callback
with it; the `except` clause catches any exception raised in the `try`
block — including one raised by the callback itself — and invokes the
callback again with `None`.  Returns the list of arguments the callback
was invoked with, in order, and whether an exception escaped the worker. -/
def refreshTicketWorker (fetchOutcome : Except String (List Ticket))
    (callback : Option (Option Ticket → Except String Unit)) :
    List (Option Ticket) × Bool :=
  match fetchOutcome with
  | Except.ok tickets =>
    let ticket := tickets.head?
    match callback with
    | none => ([], false)
    | some cb =>
      match cb ticket with
      | Except.ok _ => ([ticket], false)
      | Except.error _ =>
        match cb none with
        | Except.ok _ => ([ticket, none], false)
        | Except.error _ => ([ticket, none], true)
  | Except.error _ =>
    match callback with
    | none => ([], false)
    | some cb =>
      match cb none with
      | Except.ok _ => ([none], false)
      | Except.error _ => ([none], true)

/-- The record the worker passes to the callback on the non-raising path:
`tickets[0] if tickets else None` on fetch success, the failed value
`None` on fetch failure. -/
def fetchedRecord (fetchOutcome : Except String (List Ticket)) : Option Ticket :=
  match fetchOutcome with
  | Except.ok tickets => tickets.head?
  | Except.error _ => none

/-- A callback that raises when handed a record and returns normally when
handed the failed value. -/
def raisingCallback : Option Ticket → Except String Unit :=
  fun x =>
    match x with
    | some _ => Except.error "callback boom"
    | none => Except.ok ()

/-- C7 counterexample: with a successful fetch of `PROJ-1` and a callback
that raises when invoked with the record, the worker invokes the callback
twice — first with the record, then (from the `except` clause) with the
failed value — refuting invocation exactly once regardless of whether the
callback raises. -/
theorem refreshTicket_callback_invoked_twice :
    (refreshTicketWorker (Except.ok [⟨"PROJ-1", "f"⟩]) (some raisingCallback)).1 =
      [some ⟨"PROJ-1", "f"⟩, none] ∧
    ((refreshTicketWorker (Except.ok [⟨"PROJ-1", "f"⟩]) (some raisingCallback)).1).length ≠ 1 := by
  exact ⟨rfl, by decide⟩

/-- C7 amended: with a callback supplied, the worker invokes it at least
once and at most twice; when the callback returns normally on the value
the worker hands it, it is invoked exactly once — with the fetched record
on success, with the failed value on failure; it is invoked a second
time, with the failed value, exactly when the fetch succeeded and the
callback raised on the fetched record (stated in both directions: every
successful fetch whose record the callback raises on leads to the second
invocation with the failed value, and a second invocation happens only in
that situation). -/
theorem refreshTicket_callback_amended (fetchOutcome : Except String (List Ticket))
    (cb : Option Ticket → Except String Unit) :
    1 ≤ ((refreshTicketWorker fetchOutcome (some cb)).1).length ∧
    ((refreshTicketWorker fetchOutcome (some cb)).1).length ≤ 2 ∧
    (cb (fetchedRecord fetchOutcome) = Except.ok () →
      (refreshTicketWorker fetchOutcome (some cb)).1 = [fetchedRecord fetchOutcome]) ∧
    (fetchOutcome.isOk = true →
      (cb (fetchedRecord fetchOutcome)).isOk = false →
      (refreshTicketWorker fetchOutcome (some cb)).1 =
        [fetchedRecord fetchOutcome, none]) ∧
    (((refreshTicketWorker fetchOutcome (some cb)).1).length = 2 →
      (refreshTicketWorker fetchOutcome (some cb)).1 =
        [fetchedRecord fetchOutcome, none] ∧
      fetchOutcome.isOk = true ∧
      (cb (fetchedRecord fetchOutcome)).isOk = false) := by
  cases fetchOutcome with
  | ok tickets =>
    cases h1 : cb tickets.head? with
    | ok u =>
      cases u
      simp [refreshTicketWorker, fetchedRecord, Except.isOk, Except.toBool, h1]
    | error e1 =>
      cases h2 : cb none <;>
        simp [refreshTicketWorker, fetchedRecord, Except.isOk, Except.toBool, h1, h2]
  | error e =>
    cases h2 : cb none <;>
      simp [refreshTicketWorker, fetchedRecord, Except.isOk, Except.toBool, h2]

/-- A callback that never raises. -/
def okCallback : Option Ticket → Except String Unit := fun _ => Except.ok ()

/-- C7 amended witness: a failed fetch with a well-behaved callback leads
to exactly one invocation with the failed value, and a successful fetch
whose record the callback raises on leads to the second invocation with
the failed value. -/
theorem refreshTicket_callback_amended_witness :
    (refreshTicketWorker (Except.error "network down") (some okCallback)).1 = [none] ∧
    (refreshTicketWorker (Except.ok [⟨"PROJ-2", "g"⟩]) (some raisingCallback)).1 =
      [some ⟨"PROJ-2", "g"⟩, none] :=
  ⟨(refreshTicket_callback_amended (Except.error "network down") okCallback).2.2.1 rfl,
   (refreshTicket_callback_amended (Except.ok [⟨"PROJ-2", "g"⟩])
      raisingCallback).2.2.2.1 rfl (by decide)⟩
